import Mathlib

/-!
Shallow embedding of `src/base/integrator.cpp` (LuisaRender progressive
rendering scheduler) and proofs about it.

The embedding models the command/event trace that the scheduler emits:
device commands enqueued on the single ordered command buffer, plus the
host-side progress events, as one ordered list of `Cmd` events.  External
collaborators (Display, Pipeline printer, SceneNodeDesc property lookup)
are modelled by their observable answers, indexed by the global dispatch
index where the code polls them once per dispatch.
-/

namespace LuisaRender

/-- A camera shutter time point: `ShutterPoint` carries `time` and `weight`
(floats in the source; the scheduler only passes them through, so they are
modelled as integers). -/
structure ShutterPoint where
  time : Int
  weight : Int
deriving DecidableEq, Repr

/-- One shutter sample: a time point together with its sub-sample count,
mirroring `Camera::ShutterSample` (`s.point.time`, `s.point.weight`,
`s.spp`). -/
structure ShutterSample where
  point : ShutterPoint
  spp : Nat
deriving DecidableEq, Repr

/-- Sum of the per-shutter-sample sub-sample counts of a shutter sequence. -/
def sum_spp (ss : List ShutterSample) : Nat :=
  (ss.map ShutterSample.spp).sum

/-- Events emitted by the scheduler, in submission order: device commands
enqueued on the command buffer and host-side progress updates. -/
inductive Cmd where
  | sampler_reset (resolution : Nat × Nat) (pixel_count : Nat) (spp : Nat)
  | printer_reset
  | sync
  | pipeline_update (time : Int)
  | render_dispatch (sample_id : Nat) (time : Int) (weight : Int)
  | printer_retrieve
  | progress_update_host (sample_id : Nat)
  | progress_callback (sample_id : Nat)
  | film_prepare
  | display_reset
  | film_download (pixel_count : Nat)
  | film_release
  | save_image (resolution : Nat × Nat)
deriving DecidableEq, Repr

/-- Observable answers of the external collaborators, indexed by the global
dispatch index at which the scheduler polls them (`should_close` at line
106, `update_consumed` is `Display::update` returning true at line 112,
`printer_nonempty` is `!pipeline().printer().empty()` at line 102). -/
structure Env where
  has_display : Bool
  should_close : Nat → Bool
  update_consumed : Nat → Bool
  printer_nonempty : Nat → Bool

/-- Loop state of `_render_one_camera`’s dispatch loop: the global
`sample_id` and the `dispatch_count` commit counter (lines 95–96). -/
structure LoopState where
  sample_id : Nat
  dispatch_count : Nat
deriving DecidableEq, Repr

/-- Lines 105–108: the commit cadence in force at dispatch index `t`:
`_display && !_display->should_close() ? node->display_interval() : 32u`. -/
def dispatches_per_commit (env : Env) (display_interval : Nat) (t : Nat) : Nat :=
  if env.has_display && !env.should_close t then display_interval else 32

/-- Lines 100–117: one iteration of the inner sub-sample loop.  Emits the
dispatch (with the current `sample_id`, post-incremented), the printer
retrieval when the printer is non-empty, and, when the incremented commit
counter hits the cadence, the progress commit (host-side update when the
display consumed the frame, deferred callback otherwise). -/
def step_sub (env : Env) (display_interval : Nat) (s : ShutterSample)
    (st : LoopState) : LoopState × List Cmd :=
  let sid := st.sample_id
  let dispatch_cmds := [Cmd.render_dispatch sid s.point.time s.point.weight]
  let retrieve_cmds := if env.printer_nonempty sid then [Cmd.printer_retrieve] else []
  let d := dispatches_per_commit env display_interval sid
  if (st.dispatch_count + 1) % d = 0 then
    let commit_cmds :=
      if env.has_display && env.update_consumed sid then
        [Cmd.progress_update_host (sid + 1)]
      else
        [Cmd.progress_callback (sid + 1)]
    ({ sample_id := sid + 1, dispatch_count := 0 },
      dispatch_cmds ++ retrieve_cmds ++ commit_cmds)
  else
    ({ sample_id := sid + 1, dispatch_count := st.dispatch_count + 1 },
      dispatch_cmds ++ retrieve_cmds)

/-- Lines 99–118: the inner loop `for (auto i = 0u; i < s.spp; i++)`,
running `n` sub-sample iterations for shutter sample `s`. -/
def run_subs (env : Env) (display_interval : Nat) (s : ShutterSample) :
    Nat → LoopState → LoopState × List Cmd
  | 0, st => (st, [])
  | Nat.succ n, st =>
    let r1 := step_sub env display_interval s st
    let r2 := run_subs env display_interval s n r1.1
    (r2.1, r1.2 ++ r2.2)

/-- Lines 97–119: the outer loop `for (auto s : shutter_samples)`: per
shutter sample, the pipeline state update to `s.point.time` followed by the
`s.spp` sub-sample iterations. -/
def run_shutter (env : Env) (display_interval : Nat) :
    List ShutterSample → LoopState → LoopState × List Cmd
  | [], st => (st, [])
  | s :: rest, st =>
    let r1 := run_subs env display_interval s s.spp st
    let r2 := run_shutter env display_interval rest r1.1
    (r2.1, Cmd.pipeline_update s.point.time :: (r1.2 ++ r2.2))

/-- Lines 58–125: `_render_one_camera`.  Sampler reset with (resolution,
pixel count, spp), printer reset, the synchronization barriers at lines 68
and 89, the shutter/sub-sample dispatch loop starting from
`sample_id = 0, dispatch_count = 0`, and the final barrier at line 120.
Returns the final loop state together with the emitted event trace. -/
def render_one_camera (env : Env) (display_interval : Nat)
    (resolution : Nat × Nat) (spp : Nat) (shutter_samples : List ShutterSample) :
    LoopState × List Cmd :=
  let pixel_count := resolution.1 * resolution.2
  let r := run_shutter env display_interval shutter_samples
    { sample_id := 0, dispatch_count := 0 }
  (r.1,
    [Cmd.sampler_reset resolution pixel_count spp, Cmd.printer_reset,
      Cmd.sync, Cmd.sync] ++ r.2 ++ [Cmd.sync])

/-- Camera data as seen by `render()`: spp, film resolution and the
shutter-sample sequence (`camera->node()` accessors). -/
structure Camera where
  spp : Nat
  resolution : Nat × Nat
  shutter_samples : List ShutterSample
deriving DecidableEq, Repr

/-- Lines 41–55: the per-camera body of `render()`: film prepare, display
reset when a display exists, the single-camera loop, pixel download of
`resolution.x * resolution.y` pixels, synchronize, film release, image
save. -/
def render_camera_trace (env : Env) (display_interval : Nat) (cam : Camera) :
    List Cmd :=
  let resolution := cam.resolution
  let pixel_count := resolution.1 * resolution.2
  ([Cmd.film_prepare] ++ (if env.has_display then [Cmd.display_reset] else []))
    ++ (render_one_camera env display_interval resolution cam.spp
          cam.shutter_samples).2
    ++ [Cmd.film_download pixel_count, Cmd.sync, Cmd.film_release,
        Cmd.save_image resolution]

/-- Lines 39–56: `render()` over all registered cameras, in registration
order, strictly sequentially. -/
def render (env : Env) (display_interval : Nat) (cams : List Camera) :
    List Cmd :=
  (cams.map (render_camera_trace env display_interval)).flatten

/-- Modelled from the spec: the `Display` class is not under `src/`, so the
result of each `Display::idle` poll in the drain loop is modelled as an
abstract Boolean stream: per the spec, a poll reports `true` while the
display has not yet consumed all pending frames and `false` once it has. -/
def IdlePolls : Type := Nat → Bool

/-- Line 48: the drain busy-wait `while (_display && _display->idle(cb)) {}`,
with `fuel` bounding the number of iterations we unfold.  `t` is the index
of the next poll; returns `some k` when the loop exits after exactly `k`
iterations (polls `t, t+1, …, t+k`), and `none` when `fuel` is exhausted
with the loop still running. -/
def drain_loop (has_display : Bool) (polls : IdlePolls) :
    Nat → Nat → Option Nat
  | 0, t => if has_display && polls t then none else some 0
  | Nat.succ f, t =>
    if has_display && polls t then
      Option.map (· + 1) (drain_loop has_display polls f (t + 1))
    else some 0

/-- The global sample indices carried by the render dispatches of a trace,
in submission order. -/
def dispatch_ids (cs : List Cmd) : List Nat :=
  cs.filterMap fun c =>
    match c with
    | Cmd.render_dispatch i _ _ => some i
    | _ => none

/-- Whether an event is a render dispatch. -/
def is_dispatch : Cmd → Bool
  | Cmd.render_dispatch _ _ _ => true
  | _ => false

/-- Whether an event is a progress commit (either the host-side update of
line 113 or the deferred callback of line 115). -/
def is_commit : Cmd → Bool
  | Cmd.progress_update_host _ => true
  | Cmd.progress_callback _ => true
  | _ => false

/-- Number of progress commits in a trace. -/
def commit_count (cs : List Cmd) : Nat :=
  (cs.filter is_commit).length

/-- Whether a trace contains a progress commit. -/
def commits (cs : List Cmd) : Bool :=
  cs.any is_commit

/-- Whether an event is a printer retrieval. -/
def is_retrieve : Cmd → Bool
  | Cmd.printer_retrieve => true
  | _ => false

/-- Number of printer retrievals in a trace. -/
def retrieve_count (cs : List Cmd) : Nat :=
  (cs.filter is_retrieve).length

/-- Modelled from the spec: `SceneNodeDesc::property_node_or_default` (the
sdl layer is not under `src/`); per the spec, it returns the configured
property when present and the supplied default when absent. -/
def property_node_or_default (prop : Option String) (dflt : String) : String :=
  prop.getD dflt

/-- Modelled from the spec: `SceneNodeDesc::property_uint_or_default` (the
sdl layer is not under `src/`); per the spec, it returns the configured
integer when present and the supplied default when absent. -/
def property_uint_or_default (prop : Option Nat) (dflt : Nat) : Nat :=
  prop.getD dflt

/-- Integrator configuration node properties used by the constructors:
the optional `sampler` / `light_sampler` node references and the optional
`display_interval` integer. -/
structure SceneNodeDescModel where
  sampler : Option String
  light_sampler : Option String
  display_interval : Option Nat
deriving DecidableEq, Repr

/-- Configuration loaded by `Integrator::Integrator` (lines 14–19). -/
structure IntegratorCfg where
  sampler : String
  light_sampler : String
deriving DecidableEq, Repr

/-- Lines 14–19: the `Integrator` constructor loads the sampler and
light-sampler configurations, defaulting to `"independent"` and
`"uniform"` when the corresponding option is absent. -/
def Integrator_ctor (desc : SceneNodeDescModel) : IntegratorCfg :=
  { sampler := property_node_or_default desc.sampler "independent"
    light_sampler := property_node_or_default desc.light_sampler "uniform" }

/-- Lines 132–136: the stored `display_interval` of the
`ProgressiveIntegrator` constructor:
`static_cast<uint16_t>(std::clamp(property_uint_or_default("display_interval", 1u), 1u, 65535u))`. -/
def display_interval_stored (prop : Option Nat) : Nat :=
  (min (max (property_uint_or_default prop 1) 1) 65535) % 65536

/-- Pipeline as seen by `Integrator::Instance::Instance`: only its
`has_lighting()` answer matters to this core. -/
structure Pipeline where
  has_lighting : Bool
deriving DecidableEq, Repr

/-- A built device-resident sampler instance (external `Sampler::build`
result, identified by its configuration). -/
structure SamplerInstance where
  cfg : String
deriving DecidableEq, Repr

/-- A built device-resident light-sampler instance (external
`LightSampler::build` result, identified by its configuration). -/
structure LightSamplerInstance where
  cfg : String
deriving DecidableEq, Repr

/-- State of a constructed `Integrator::Instance`: the borrowed pipeline,
the owned sampler instance, and the optionally owned light-sampler
instance. -/
structure IntegratorInstance where
  pipeline : Pipeline
  sampler : SamplerInstance
  light_sampler : Option LightSamplerInstance
deriving DecidableEq, Repr

/-- Lines 21–26: the `Integrator::Instance` constructor: builds the sampler
unconditionally and builds the light sampler exactly when
`pipeline.has_lighting()`, storing null otherwise.  All three members are
set in the constructor initializer list and never reassigned. -/
def IntegratorInstance_ctor (pipeline : Pipeline) (integ : IntegratorCfg) :
    IntegratorInstance :=
  { pipeline := pipeline
    sampler := { cfg := integ.sampler }
    light_sampler :=
      if pipeline.has_lighting then some { cfg := integ.light_sampler }
      else none }

/-- Radiance value type of `Li` (`Float3` in the source; its numeric
content never matters because the base `Li` never produces one). -/
structure Float3 where
  x : Int
  y : Int
  z : Int
deriving DecidableEq, Repr

/-- A fatal error raised by `LUISA_ERROR_WITH_LOCATION`: message plus the
call-site location it appends. -/
structure FatalError where
  message : String
  location : String
deriving DecidableEq, Repr

/-- The error value raised by the base `ProgressiveIntegrator::Instance::Li`
(lines 127–130). -/
def li_unimplemented_error : FatalError :=
  { message := "ProgressiveIntegrator::Li() is not implemented."
    location := "src/base/integrator.cpp:129" }

/-- Lines 127–130: the base `ProgressiveIntegrator::Instance::Li`: it
unconditionally raises a fatal error identifying the call site and never
returns a radiance value. -/
def Li (camera : Camera) (frame_index : Nat) (pixel_id : Nat × Nat)
    (time : Int) : Except FatalError Float3 :=
  Except.error li_unimplemented_error

/-- A concrete environment with no display and an always-empty printer,
used for witnesses. -/
def env0 : Env :=
  { has_display := false
    should_close := fun _ => false
    update_consumed := fun _ => false
    printer_nonempty := fun _ => false }

/-- A concrete environment with a display that never closes, used for
witnesses. -/
def env1 : Env :=
  { has_display := true
    should_close := fun _ => false
    update_consumed := fun _ => false
    printer_nonempty := fun t => t % 2 = 0 }

/-- A concrete environment with a display that signals close from dispatch
index 3 on, used for witnesses. -/
def env2 : Env :=
  { has_display := true
    should_close := fun t => 3 ≤ t
    update_consumed := fun _ => true
    printer_nonempty := fun _ => false }

/-- A concrete idle-poll stream reporting pending frames for the first two
polls, used for witnesses. -/
def polls0 : IdlePolls := fun t => t < 2

/-- A concrete shutter-sample sequence summing to 4 sub-samples, used for
witnesses. -/
def ss0 : List ShutterSample :=
  [{ point := { time := 0, weight := 1 }, spp := 2 },
   { point := { time := 3, weight := 1 }, spp := 2 }]

/-- A concrete shutter sample, used for witnesses. -/
def shutter0 : ShutterSample :=
  { point := { time := 0, weight := 1 }, spp := 40 }

/-- A concrete camera, used for witnesses. -/
def cam0 : Camera :=
  { spp := 2, resolution := (2, 2),
    shutter_samples := [{ point := { time := 0, weight := 1 }, spp := 2 }] }

/-- A pipeline without lighting, used for witnesses. -/
def pipe0 : Pipeline := { has_lighting := false }

/-- A pipeline with lighting, used for witnesses. -/
def pipe1 : Pipeline := { has_lighting := true }

/-- A concrete integrator configuration, used for witnesses. -/
def integ0 : IntegratorCfg := { sampler := "independent", light_sampler := "uniform" }

/-- A configuration node with no properties set, used for witnesses. -/
def desc_empty : SceneNodeDescModel :=
  { sampler := none, light_sampler := none, display_interval := none }

/-- A configuration node with all properties set, used for witnesses. -/
def desc_full : SceneNodeDescModel :=
  { sampler := some "sobol", light_sampler := some "bvh",
    display_interval := some 100000 }

/-! ## Helper lemmas about the dispatch loop -/

theorem step_sub_sample_id (env : Env) (di : Nat) (s : ShutterSample)
    (st : LoopState) : (step_sub env di s st).1.sample_id = st.sample_id + 1 := by
  unfold step_sub
  dsimp only
  split <;> rfl

theorem dispatch_ids_append (a b : List Cmd) :
    dispatch_ids (a ++ b) = dispatch_ids a ++ dispatch_ids b := by
  unfold dispatch_ids
  exact List.filterMap_append a b _

theorem step_sub_dispatch_ids (env : Env) (di : Nat) (s : ShutterSample)
    (st : LoopState) :
    dispatch_ids (step_sub env di s st).2 = [st.sample_id] := by
  unfold step_sub
  dsimp only
  split <;> split <;> (try split) <;> simp [dispatch_ids]

theorem run_subs_sample_id (env : Env) (di : Nat) (s : ShutterSample) :
    ∀ (n : Nat) (st : LoopState),
      (run_subs env di s n st).1.sample_id = st.sample_id + n := by
  intro n
  induction n with
  | zero => intro st; rfl
  | succ n ih =>
    intro st
    show (run_subs env di s n (step_sub env di s st).1).1.sample_id = _
    rw [ih, step_sub_sample_id]
    omega

theorem run_subs_dispatch_ids (env : Env) (di : Nat) (s : ShutterSample) :
    ∀ (n : Nat) (st : LoopState),
      dispatch_ids (run_subs env di s n st).2 = List.range' st.sample_id n := by
  intro n
  induction n with
  | zero => intro st; rfl
  | succ n ih =>
    intro st
    show dispatch_ids ((step_sub env di s st).2 ++
      (run_subs env di s n (step_sub env di s st).1).2) = _
    rw [dispatch_ids_append, step_sub_dispatch_ids, ih, step_sub_sample_id,
      List.range'_succ]
    rfl

theorem run_shutter_sample_id (env : Env) (di : Nat) :
    ∀ (ss : List ShutterSample) (st : LoopState),
      (run_shutter env di ss st).1.sample_id = st.sample_id + sum_spp ss := by
  intro ss
  induction ss with
  | nil => intro st; simp [run_shutter, sum_spp]
  | cons s rest ih =>
    intro st
    show (run_shutter env di rest (run_subs env di s s.spp st).1).1.sample_id = _
    rw [ih, run_subs_sample_id]
    simp [sum_spp]
    omega

theorem run_shutter_dispatch_ids (env : Env) (di : Nat) :
    ∀ (ss : List ShutterSample) (st : LoopState),
      dispatch_ids (run_shutter env di ss st).2
        = List.range' st.sample_id (sum_spp ss) := by
  intro ss
  induction ss with
  | nil => intro st; simp [run_shutter, sum_spp, dispatch_ids]
  | cons s rest ih =>
    intro st
    show dispatch_ids (Cmd.pipeline_update s.point.time ::
      ((run_subs env di s s.spp st).2 ++
        (run_shutter env di rest (run_subs env di s s.spp st).1).2)) = _
    have hcons : dispatch_ids (Cmd.pipeline_update s.point.time ::
        ((run_subs env di s s.spp st).2 ++
          (run_shutter env di rest (run_subs env di s s.spp st).1).2))
        = dispatch_ids ((run_subs env di s s.spp st).2 ++
          (run_shutter env di rest (run_subs env di s s.spp st).1).2) := by
      simp [dispatch_ids]
    rw [hcons, dispatch_ids_append, run_subs_dispatch_ids, ih,
      run_subs_sample_id]
    have h := List.range'_append_1 st.sample_id s.spp (sum_spp rest)
    simp only [sum_spp, List.map_cons, List.sum_cons] at h ⊢
    rw [Nat.add_comm (List.map ShutterSample.spp rest).sum s.spp] at h
    exact h

theorem commit_count_append (a b : List Cmd) :
    commit_count (a ++ b) = commit_count a + commit_count b := by
  simp [commit_count, List.filter_append]

theorem retrieve_count_append (a b : List Cmd) :
    retrieve_count (a ++ b) = retrieve_count a + retrieve_count b := by
  simp [retrieve_count, List.filter_append]

theorem step_sub_commits_iff (env : Env) (di : Nat) (s : ShutterSample)
    (st : LoopState) :
    commits (step_sub env di s st).2 = true ↔
      (st.dispatch_count + 1) % dispatches_per_commit env di st.sample_id = 0 := by
  unfold step_sub
  dsimp only
  split <;> (try split) <;> (try split) <;> simp_all [commits, is_commit]

theorem step_sub_reset_iff (env : Env) (di : Nat) (s : ShutterSample)
    (st : LoopState) :
    (step_sub env di s st).1.dispatch_count = 0 ↔
      (st.dispatch_count + 1) % dispatches_per_commit env di st.sample_id = 0 := by
  unfold step_sub
  dsimp only
  split <;> simp_all

theorem step_sub_commit_count (env : Env) (di : Nat) (s : ShutterSample)
    (st : LoopState) :
    commit_count (step_sub env di s st).2 =
      if (st.dispatch_count + 1) % dispatches_per_commit env di st.sample_id = 0
      then 1 else 0 := by
  unfold step_sub
  dsimp only
  split <;> (try split) <;> (try split) <;> simp_all [commit_count, is_commit]

theorem step_sub_retrieve_count (env : Env) (di : Nat) (s : ShutterSample)
    (st : LoopState) :
    retrieve_count (step_sub env di s st).2 =
      if env.printer_nonempty st.sample_id then 1 else 0 := by
  unfold step_sub
  dsimp only
  split <;> (try split) <;> (try split) <;>
    simp_all [retrieve_count, is_retrieve]

theorem step_sub_state_no_commit (env : Env) (di : Nat) (s : ShutterSample)
    (st : LoopState)
    (h : (st.dispatch_count + 1) % dispatches_per_commit env di st.sample_id ≠ 0) :
    (step_sub env di s st).1
      = { sample_id := st.sample_id + 1,
          dispatch_count := st.dispatch_count + 1 } := by
  unfold step_sub
  dsimp only
  split <;> simp_all

theorem run_subs_succ_back (env : Env) (di : Nat) (s : ShutterSample) :
    ∀ (n : Nat) (st : LoopState),
      run_subs env di s (n + 1) st
        = ((step_sub env di s (run_subs env di s n st).1).1,
           (run_subs env di s n st).2
             ++ (step_sub env di s (run_subs env di s n st).1).2) := by
  intro n
  induction n with
  | zero => intro st; simp [run_subs]
  | succ n ih =>
    intro st
    show ((run_subs env di s (n + 1) (step_sub env di s st).1).1,
        (step_sub env di s st).2
          ++ (run_subs env di s (n + 1) (step_sub env di s st).1).2) = _
    rw [ih]
    show (_, (step_sub env di s st).2 ++ _) = _
    have hr : run_subs env di s (n + 1) st
        = ((run_subs env di s n (step_sub env di s st).1).1,
            (step_sub env di s st).2
              ++ (run_subs env di s n (step_sub env di s st).1).2) := rfl
    rw [hr]
    simp [List.append_assoc]

theorem run_subs_no_commit (env : Env) (di : Nat) (s : ShutterSample)
    (d : Nat) (hconst : ∀ t, dispatches_per_commit env di t = d) :
    ∀ (j : Nat) (st : LoopState),
      (∀ i, i < j → (st.dispatch_count + i + 1) % d ≠ 0) →
      (run_subs env di s j st).1
          = { sample_id := st.sample_id + j,
              dispatch_count := st.dispatch_count + j }
        ∧ commit_count (run_subs env di s j st).2 = 0 := by
  intro j
  induction j with
  | zero =>
    intro st _
    constructor
    · show st = _
      cases st
      rfl
    · rfl
  | succ j ih =>
    intro st hno
    have h0 : (st.dispatch_count + 1) % d ≠ 0 := by
      have := hno 0 (Nat.succ_pos j)
      simpa using this
    have hstep : (step_sub env di s st).1
        = { sample_id := st.sample_id + 1,
            dispatch_count := st.dispatch_count + 1 } := by
      apply step_sub_state_no_commit
      rw [hconst]
      exact h0
    have hstepc : commit_count (step_sub env di s st).2 = 0 := by
      rw [step_sub_commit_count, hconst]
      simp [h0]
    have hshift : ∀ i, i < j →
        (st.dispatch_count + 1 + i + 1) % d ≠ 0 := by
      intro i hi
      have := hno (i + 1) (by omega)
      have harg : st.dispatch_count + (i + 1) + 1
          = st.dispatch_count + 1 + i + 1 := by omega
      rw [harg] at this
      exact this
    have ihr := ih (step_sub env di s st).1 (by rw [hstep]; exact hshift)
    constructor
    · show (run_subs env di s j (step_sub env di s st).1).1 = _
      rw [ihr.1, hstep]
      have h1 : st.sample_id + 1 + j = st.sample_id + (j + 1) := by omega
      have h2 : st.dispatch_count + 1 + j = st.dispatch_count + (j + 1) := by
        omega
      simp [h1, h2]
    · show commit_count ((step_sub env di s st).2
          ++ (run_subs env di s j (step_sub env di s st).1).2) = 0
      rw [commit_count_append, hstepc, ihr.2]

theorem mod_add_small (c d i : Nat) (h : c % d + i + 1 < d) :
    (c + i + 1) % d = c % d + i + 1 := by
  have hdm := Nat.div_add_mod c d
  have harg : c + i + 1 = d * (c / d) + (c % d + i + 1) := by omega
  rw [harg, Nat.mul_add_mod]
  exact Nat.mod_eq_of_lt h

theorem mod_add_full (c d : Nat) (hd : 0 < d) : (c + (d - c % d)) % d = 0 := by
  have hr : c % d < d := Nat.mod_lt _ hd
  have hdm := Nat.div_add_mod c d
  have harg : c + (d - c % d) = d * (c / d + 1) := by
    have hmul : d * (c / d + 1) = d * (c / d) + d := by ring
    omega
  rw [harg]
  exact Nat.mul_mod_right _ _

theorem drain_loop_no_display (polls : IdlePolls) (fuel t : Nat) :
    drain_loop false polls fuel t = some 0 := by
  cases fuel <;> simp [drain_loop]

theorem drain_loop_sound (polls : IdlePolls) :
    ∀ (fuel t k : Nat), drain_loop true polls fuel t = some k →
      polls (t + k) = false ∧ ∀ j, j < k → polls (t + j) = true := by
  intro fuel
  induction fuel with
  | zero =>
    intro t k h
    cases hp : polls t <;> simp [drain_loop, hp] at h
    subst h
    exact ⟨by simpa using hp, by intro j hj; omega⟩
  | succ f ih =>
    intro t k h
    cases hp : polls t <;> simp [drain_loop, hp] at h
    · subst h
      exact ⟨by simpa using hp, by intro j hj; omega⟩
    · obtain ⟨k', hk', rfl⟩ := h
      have hrec := ih (t + 1) k' hk'
      constructor
      · have harg : t + (k' + 1) = t + 1 + k' := by omega
        rw [harg]
        exact hrec.1
      · intro j hj
        cases j with
        | zero => simpa using hp
        | succ j' =>
          have harg : t + (j' + 1) = t + 1 + j' := by omega
          rw [harg]
          exact hrec.2 j' (by omega)

theorem drain_loop_complete (polls : IdlePolls) :
    ∀ (k fuel t : Nat), k ≤ fuel → polls (t + k) = false →
      (∀ j, j < k → polls (t + j) = true) →
      drain_loop true polls fuel t = some k := by
  intro k
  induction k with
  | zero =>
    intro fuel t _ h0 _
    have hp : polls t = false := by simpa using h0
    cases fuel <;> simp [drain_loop, hp]
  | succ k ih =>
    intro fuel t hle hk hall
    have hp : polls t = true := hall 0 (by omega)
    obtain ⟨f, rfl⟩ : ∃ f, fuel = f + 1 := ⟨fuel - 1, by omega⟩
    have h1 : polls (t + 1 + k) = false := by
      have harg : t + 1 + k = t + (k + 1) := by omega
      rw [harg]
      exact hk
    have h2 : ∀ j, j < k → polls (t + 1 + j) = true := by
      intro j hj
      have harg : t + 1 + j = t + (j + 1) := by omega
      rw [harg]
      exact hall (j + 1) (by omega)
    have hrec := ih f (t + 1) (by omega) h1 h2
    simp [drain_loop, hp, hrec]

theorem run_subs_retrieve_count (env : Env) (di : Nat) (s : ShutterSample) :
    ∀ (n : Nat) (st : LoopState),
      retrieve_count (run_subs env di s n st).2
        = (List.range' st.sample_id n).countP env.printer_nonempty := by
  intro n
  induction n with
  | zero => intro st; rfl
  | succ n ih =>
    intro st
    show retrieve_count ((step_sub env di s st).2
        ++ (run_subs env di s n (step_sub env di s st).1).2) = _
    rw [retrieve_count_append, step_sub_retrieve_count, ih, step_sub_sample_id,
      List.range'_succ, List.countP_cons]
    split <;> simp_all [Nat.add_comm]

theorem run_shutter_retrieve_count (env : Env) (di : Nat) :
    ∀ (ss : List ShutterSample) (st : LoopState),
      retrieve_count (run_shutter env di ss st).2
        = (List.range' st.sample_id (sum_spp ss)).countP env.printer_nonempty := by
  intro ss
  induction ss with
  | nil => intro st; rfl
  | cons s rest ih =>
    intro st
    show retrieve_count (Cmd.pipeline_update s.point.time ::
        ((run_subs env di s s.spp st).2
          ++ (run_shutter env di rest (run_subs env di s s.spp st).1).2)) = _
    have hcons : retrieve_count (Cmd.pipeline_update s.point.time ::
        ((run_subs env di s s.spp st).2
          ++ (run_shutter env di rest (run_subs env di s s.spp st).1).2))
        = retrieve_count ((run_subs env di s s.spp st).2
          ++ (run_shutter env di rest (run_subs env di s s.spp st).1).2) := by
      simp [retrieve_count, is_retrieve]
    rw [hcons, retrieve_count_append, run_subs_retrieve_count, ih,
      run_subs_sample_id]
    have h := List.range'_append_1 st.sample_id s.spp (sum_spp rest)
    have hsum : sum_spp (s :: rest) = s.spp + sum_spp rest := by
      simp [sum_spp]
    rw [Nat.add_comm (sum_spp rest) s.spp] at h
    rw [hsum, ← h, List.countP_append]

theorem render_one_camera_trace_shape (env : Env) (di : Nat)
    (resolution : Nat × Nat) (spp : Nat) (ss : List ShutterSample) :
    (render_one_camera env di resolution spp ss).2
      = Cmd.sampler_reset resolution (resolution.1 * resolution.2) spp
          :: ([Cmd.printer_reset, Cmd.sync, Cmd.sync]
            ++ (run_shutter env di ss
                  { sample_id := 0, dispatch_count := 0 }).2
            ++ [Cmd.sync]) := by
  simp [render_one_camera]

/-! ## Claim theorems -/

/-- Claim C1: for every camera whose shutter-sample sequence's sub-sample counts
sum to the camera's spp `S`, `_render_one_camera` submits exactly `S`
dispatches of the per-pixel program, the global sample index passed to them
takes the values `0, 1, …, S-1` in strictly increasing submission order,
and the final global sample index equals `S`. -/
theorem render_one_camera_dispatch_schedule (env : Env) (di : Nat)
    (resolution : Nat × Nat) (S : Nat) (ss : List ShutterSample)
    (h : sum_spp ss = S) :
    dispatch_ids (render_one_camera env di resolution S ss).2 = List.range S
      ∧ (dispatch_ids (render_one_camera env di resolution S ss).2).length = S
      ∧ (render_one_camera env di resolution S ss).1.sample_id = S := by
  have hids : dispatch_ids (render_one_camera env di resolution S ss).2
      = List.range S := by
    rw [render_one_camera_trace_shape]
    have hcons : dispatch_ids (Cmd.sampler_reset resolution
        (resolution.1 * resolution.2) S
          :: ([Cmd.printer_reset, Cmd.sync, Cmd.sync]
            ++ (run_shutter env di ss
                  { sample_id := 0, dispatch_count := 0 }).2
            ++ [Cmd.sync]))
        = dispatch_ids ((run_shutter env di ss
            { sample_id := 0, dispatch_count := 0 }).2) := by
      simp [dispatch_ids]
    rw [hcons, run_shutter_dispatch_ids, h, List.range_eq_range']
  refine ⟨hids, ?_, ?_⟩
  · rw [hids, List.length_range]
  · show (run_shutter env di ss { sample_id := 0, dispatch_count := 0 }).1.sample_id = S
    rw [run_shutter_sample_id, h]
    simp

theorem render_one_camera_dispatch_schedule_witness :
    sum_spp ss0 = 4
      ∧ (dispatch_ids (render_one_camera env1 5 (2, 2) 4 ss0).2 = List.range 4
        ∧ (dispatch_ids (render_one_camera env1 5 (2, 2) 4 ss0).2).length = 4
        ∧ (render_one_camera env1 5 (2, 2) 4 ss0).1.sample_id = 4) :=
  ⟨by decide, render_one_camera_dispatch_schedule env1 5 (2, 2) 4 ss0 (by decide)⟩

/-- Claim C2: at every dispatch of the single-camera loop, the commit cadence (the
divisor deciding whether the dispatch triggers a commit) equals the
configured display interval when a display exists and has not signaled
close, and equals 32 in all other cases (no display, or close signaled);
with the close signal latched, once the display signals close every later
dispatch uses cadence 32. -/
theorem commit_cadence_selection (env : Env) (di t : Nat) :
    (env.has_display = true → env.should_close t = false →
        dispatches_per_commit env di t = di)
      ∧ (env.has_display = false → dispatches_per_commit env di t = 32)
      ∧ (env.should_close t = true → dispatches_per_commit env di t = 32)
      ∧ (∀ (s : ShutterSample) (st : LoopState),
          commits (step_sub env di s st).2 = true ↔
            (st.dispatch_count + 1) %
              dispatches_per_commit env di st.sample_id = 0)
      ∧ (∀ t0, env.should_close t0 = true →
          (∀ a b, a ≤ b → env.should_close a = true →
            env.should_close b = true) →
          ∀ u, t0 ≤ u → dispatches_per_commit env di u = 32) := by
  refine ⟨?_, ?_, ?_, ?_, ?_⟩
  · intro h1 h2
    simp [dispatches_per_commit, h1, h2]
  · intro h1
    simp [dispatches_per_commit, h1]
  · intro h1
    simp [dispatches_per_commit, h1]
  · intro s st
    exact step_sub_commits_iff env di s st
  · intro t0 h0 hmono u hu
    have hc : env.should_close u = true := hmono t0 u hu h0
    simp [dispatches_per_commit, hc]

theorem commit_cadence_selection_witness :
    dispatches_per_commit env0 5 0 = 32
      ∧ dispatches_per_commit env1 5 0 = 5
      ∧ dispatches_per_commit env2 5 10 = 32 :=
  ⟨(commit_cadence_selection env0 5 0).2.1 rfl,
   (commit_cadence_selection env1 5 0).1 rfl rfl,
   (commit_cadence_selection env2 5 10).2.2.2.2 3 (by decide)
     (by
       intro a b hab ha
       simp only [env2, decide_eq_true_eq] at ha ⊢
       omega)
     10 (by decide)⟩

/-- Claim C3: after the single-camera loop and before the pixel download, the
driver keeps polling the display exactly while a display exists and the
display reports pending frames; the drain loop exits when the display
signals it has consumed all pending frames, and it is skipped entirely when
no display exists. -/
theorem display_drain_characterization (polls : IdlePolls) (fuel t k : Nat) :
    drain_loop false polls fuel t = some 0
      ∧ (drain_loop true polls fuel t = some k →
          polls (t + k) = false ∧ ∀ j, j < k → polls (t + j) = true)
      ∧ (k ≤ fuel → polls (t + k) = false →
          (∀ j, j < k → polls (t + j) = true) →
          drain_loop true polls fuel t = some k) :=
  ⟨drain_loop_no_display polls fuel t,
   drain_loop_sound polls fuel t k,
   fun hle hk hall => drain_loop_complete polls k fuel t hle hk hall⟩

theorem display_drain_characterization_witness :
    (2 ≤ 5 ∧ polls0 (0 + 2) = false ∧ ∀ j, j < 2 → polls0 (0 + j) = true)
      ∧ drain_loop true polls0 5 0 = some 2 :=
  ⟨⟨by decide, by decide, by intro j hj; interval_cases j <;> decide⟩,
   (display_drain_characterization polls0 5 0 2).2.2 (by decide) (by decide)
     (by intro j hj; interval_cases j <;> decide)⟩

/-- Claim C4: the stored `display_interval` is the configured value clamped to the
inclusive range `[1, 65535]`: input 0 yields 1, input 100000 yields 65535,
any input already in range is kept unchanged, an absent option defaults to
1, and for every input the stored value lies in `[1, 65535]` (the
constructor reports no error — the clamp is total). -/
theorem display_interval_clamped :
    display_interval_stored (some 0) = 1
      ∧ display_interval_stored (some 100000) = 65535
      ∧ (∀ v, 1 ≤ v → v ≤ 65535 → display_interval_stored (some v) = v)
      ∧ display_interval_stored none = 1
      ∧ ∀ p, 1 ≤ display_interval_stored p ∧ display_interval_stored p ≤ 65535 := by
  refine ⟨by decide, by decide, ?_, by decide, ?_⟩
  · intro v h1 h2
    unfold display_interval_stored property_uint_or_default
    simp only [Option.getD_some]
    omega
  · intro p
    cases p with
    | none => exact ⟨by decide, by decide⟩
    | some v =>
      unfold display_interval_stored property_uint_or_default
      simp only [Option.getD_some]
      constructor <;> omega

theorem display_interval_clamped_witness :
    1 ≤ 7 ∧ 7 ≤ 65535 ∧ display_interval_stored (some 7) = 7 :=
  ⟨by decide, by decide,
   display_interval_clamped.2.2.1 7 (by decide) (by decide)⟩

/-- Claim C5: every call to the base `ProgressiveIntegrator::Instance::Li`,
regardless of camera, frame index, pixel coordinate, and time, raises the
same fatal error identifying the call site and never returns a color
value. -/
theorem li_base_always_fatal (camera : Camera) (frame_index : Nat)
    (pixel_id : Nat × Nat) (time : Int) :
    Li camera frame_index pixel_id time = Except.error li_unimplemented_error
      ∧ ∀ v : Float3, Li camera frame_index pixel_id time ≠ Except.ok v :=
  ⟨rfl, fun v h => Except.noConfusion h⟩

/-- Claim C6: for every `Integrator::Instance` constructed against a pipeline, the
light-sampler-instance member is non-null iff the pipeline reports lighting
present; when the pipeline reports no lighting it is null, and when
lighting is present it holds the built light-sampler instance.  The member
is fixed by the constructor initializer list (the embedding has no other
assignment). -/
theorem light_sampler_iff_lighting (p : Pipeline) (integ : IntegratorCfg) :
    (IntegratorInstance_ctor p integ).light_sampler.isSome = p.has_lighting
      ∧ (p.has_lighting = false →
          (IntegratorInstance_ctor p integ).light_sampler = none)
      ∧ (p.has_lighting = true →
          (IntegratorInstance_ctor p integ).light_sampler
            = some { cfg := integ.light_sampler }) := by
  refine ⟨?_, ?_, ?_⟩ <;>
    (try intro h) <;>
    simp_all [IntegratorInstance_ctor]
  cases hp : p.has_lighting <;> simp [IntegratorInstance_ctor, hp]

theorem light_sampler_iff_lighting_witness :
    (IntegratorInstance_ctor pipe0 integ0).light_sampler = none
      ∧ (IntegratorInstance_ctor pipe1 integ0).light_sampler
          = some { cfg := "uniform" } :=
  ⟨(light_sampler_iff_lighting pipe0 integ0).2.1 rfl,
   (light_sampler_iff_lighting pipe1 integ0).2.2 rfl⟩

/-- Claim C9: when the integrator configuration node omits the `sampler` option
the loaded sampler configuration is the `"independent"` default, when it
omits `light_sampler` the loaded light-sampler configuration is the
`"uniform"` default, and an explicitly given option overrides the
default. -/
theorem integrator_config_defaults (desc : SceneNodeDescModel) :
    (desc.sampler = none → (Integrator_ctor desc).sampler = "independent")
      ∧ (∀ s, desc.sampler = some s → (Integrator_ctor desc).sampler = s)
      ∧ (desc.light_sampler = none →
          (Integrator_ctor desc).light_sampler = "uniform")
      ∧ (∀ s, desc.light_sampler = some s →
          (Integrator_ctor desc).light_sampler = s) := by
  refine ⟨?_, ?_, ?_, ?_⟩
  · intro h
    simp [Integrator_ctor, property_node_or_default, h]
  · intro s h
    simp [Integrator_ctor, property_node_or_default, h]
  · intro h
    simp [Integrator_ctor, property_node_or_default, h]
  · intro s h
    simp [Integrator_ctor, property_node_or_default, h]

theorem integrator_config_defaults_witness :
    (Integrator_ctor desc_empty).sampler = "independent"
      ∧ (Integrator_ctor desc_full).sampler = "sobol"
      ∧ (Integrator_ctor desc_empty).light_sampler = "uniform"
      ∧ (Integrator_ctor desc_full).light_sampler = "bvh" :=
  ⟨(integrator_config_defaults desc_empty).1 rfl,
   (integrator_config_defaults desc_full).2.1 "sobol" rfl,
   (integrator_config_defaults desc_empty).2.2.1 rfl,
   (integrator_config_defaults desc_full).2.2.2 "bvh" rfl⟩

/-- Claim C7: on every dispatch of the single-camera loop the dispatch command
comes first, and when the printer is non-empty at that dispatch the
retrieval command is enqueued immediately after it (position 1); when the
printer is empty no retrieval is enqueued for that dispatch.  This happens
exactly once per dispatch, for every counter/cadence situation, and over a
whole camera the number of retrievals equals the number of dispatches at
which the printer was non-empty. -/
theorem per_dispatch_printer_retrieve (env : Env) (di : Nat) :
    (∀ (s : ShutterSample) (st : LoopState),
        (step_sub env di s st).2.head?
            = some (Cmd.render_dispatch st.sample_id s.point.time s.point.weight)
          ∧ (env.printer_nonempty st.sample_id = true →
              (step_sub env di s st).2[1]? = some Cmd.printer_retrieve)
          ∧ (env.printer_nonempty st.sample_id = false →
              Cmd.printer_retrieve ∉ (step_sub env di s st).2)
          ∧ retrieve_count (step_sub env di s st).2
              = if env.printer_nonempty st.sample_id then 1 else 0)
      ∧ ∀ (resolution : Nat × Nat) (spp : Nat) (ss : List ShutterSample),
          retrieve_count (render_one_camera env di resolution spp ss).2
            = (List.range (sum_spp ss)).countP env.printer_nonempty := by
  constructor
  · intro s st
    refine ⟨?_, ?_, ?_, step_sub_retrieve_count env di s st⟩
    · unfold step_sub
      dsimp only
      split <;> (try split) <;> (try split) <;> simp_all
    · intro hp
      unfold step_sub
      dsimp only
      split <;> (try split) <;> (try split) <;> simp_all
    · intro hp
      unfold step_sub
      dsimp only
      split <;> (try split) <;> (try split) <;> simp_all
  · intro resolution spp ss
    rw [render_one_camera_trace_shape]
    have hcons : retrieve_count (Cmd.sampler_reset resolution
        (resolution.1 * resolution.2) spp
          :: ([Cmd.printer_reset, Cmd.sync, Cmd.sync]
            ++ (run_shutter env di ss
                  { sample_id := 0, dispatch_count := 0 }).2
            ++ [Cmd.sync]))
        = retrieve_count ((run_shutter env di ss
            { sample_id := 0, dispatch_count := 0 }).2) := by
      simp [retrieve_count, is_retrieve, List.filter_append]
    rw [hcons, run_shutter_retrieve_count, List.range_eq_range']

theorem per_dispatch_printer_retrieve_witness :
    (env1.printer_nonempty 0 = true
        ∧ (step_sub env1 5 shutter0
            { sample_id := 0, dispatch_count := 0 }).2[1]?
              = some Cmd.printer_retrieve)
      ∧ retrieve_count (render_one_camera env1 5 (2, 2) 4 ss0).2
          = (List.range (sum_spp ss0)).countP env1.printer_nonempty :=
  ⟨⟨by decide,
    ((per_dispatch_printer_retrieve env1 5).1 shutter0
        { sample_id := 0, dispatch_count := 0 }).2.1 (by decide)⟩,
   (per_dispatch_printer_retrieve env1 5).2 (2, 2) 4 ss0⟩

/-- Claim C8: for every camera processed by `render()`, the sampler is reset with
that camera's resolution, pixel count (`resolution.x * resolution.y`) and
total spp before any dispatch of the per-pixel program is submitted for
that camera: the camera's event trace splits as a prefix containing no
dispatch, then the sampler reset, then the rest. -/
theorem sampler_reset_before_dispatch (env : Env) (di : Nat)
    (cams : List Camera) (cam : Camera) (hmem : cam ∈ cams) :
    ∃ A B pre post,
      render env di cams = A ++ (render_camera_trace env di cam ++ B)
        ∧ render_camera_trace env di cam
            = pre ++ Cmd.sampler_reset cam.resolution
                (cam.resolution.1 * cam.resolution.2) cam.spp :: post
        ∧ ∀ c ∈ pre, is_dispatch c = false := by
  obtain ⟨l1, l2, rfl⟩ := List.append_of_mem hmem
  refine ⟨(l1.map (render_camera_trace env di)).flatten,
    (l2.map (render_camera_trace env di)).flatten,
    [Cmd.film_prepare] ++ (if env.has_display then [Cmd.display_reset] else []),
    ([Cmd.printer_reset, Cmd.sync, Cmd.sync]
        ++ (run_shutter env di cam.shutter_samples
              { sample_id := 0, dispatch_count := 0 }).2
        ++ [Cmd.sync])
      ++ [Cmd.film_download (cam.resolution.1 * cam.resolution.2), Cmd.sync,
          Cmd.film_release, Cmd.save_image cam.resolution], ?_, ?_, ?_⟩
  · simp [render, List.map_append, List.flatten_append]
  · rw [render_camera_trace, render_one_camera_trace_shape]
    simp [List.append_assoc]
  · intro c hc
    cases henv : env.has_display <;> simp [henv] at hc
    · subst hc
      rfl
    · rcases hc with rfl | rfl <;> rfl

theorem sampler_reset_before_dispatch_witness :
    cam0 ∈ [cam0]
      ∧ ∃ A B pre post,
          render env0 1 [cam0] = A ++ (render_camera_trace env0 1 cam0 ++ B)
            ∧ render_camera_trace env0 1 cam0
                = pre ++ Cmd.sampler_reset cam0.resolution
                    (cam0.resolution.1 * cam0.resolution.2) cam0.spp :: post
            ∧ ∀ c ∈ pre, is_dispatch c = false :=
  ⟨List.mem_singleton.mpr rfl,
   sampler_reset_before_dispatch env0 1 [cam0] cam0
     (List.mem_singleton.mpr rfl)⟩

/-- Claim C10: a commit fires on a dispatch exactly when the incremented dispatch
counter is a multiple of the cadence in force at that dispatch, and the
counter is reset to zero exactly when a commit fires; consequently, with a
constant cadence `d` in force, from a counter value `c` the next commit
occurs exactly on the `(d - c % d)`-th subsequent dispatch — the next
multiple of `d` reached by the counter, which may be later than `d`
dispatches after the previous commit when the cadence changed in
between. -/
theorem commit_counter_behavior (env : Env) (di : Nat) (s : ShutterSample)
    (d : Nat) (hconst : ∀ t, dispatches_per_commit env di t = d)
    (hd : 0 < d) :
    (∀ st : LoopState, commits (step_sub env di s st).2 = true ↔
        (st.dispatch_count + 1) % d = 0)
      ∧ (∀ st : LoopState, (step_sub env di s st).1.dispatch_count = 0 ↔
          commits (step_sub env di s st).2 = true)
      ∧ (∀ (st : LoopState) (j : Nat), j < d - st.dispatch_count % d →
          commit_count (run_subs env di s j st).2 = 0)
      ∧ (∀ st : LoopState,
          commit_count
            (run_subs env di s (d - st.dispatch_count % d) st).2 = 1) := by
  refine ⟨?_, ?_, ?_, ?_⟩
  · intro st
    rw [step_sub_commits_iff, hconst]
  · intro st
    rw [step_sub_reset_iff, step_sub_commits_iff]
  · intro st j hj
    have hr : st.dispatch_count % d < d := Nat.mod_lt _ hd
    have hno : ∀ i, i < j → (st.dispatch_count + i + 1) % d ≠ 0 := by
      intro i hi
      have hlt : st.dispatch_count % d + i + 1 < d := by omega
      rw [mod_add_small st.dispatch_count d i hlt]
      omega
    exact (run_subs_no_commit env di s d hconst j st hno).2
  · intro st
    have hr : st.dispatch_count % d < d := Nat.mod_lt _ hd
    obtain ⟨k', hk'⟩ : ∃ k', d - st.dispatch_count % d = k' + 1 :=
      ⟨d - st.dispatch_count % d - 1, by omega⟩
    rw [hk', run_subs_succ_back, commit_count_append]
    have hno : ∀ i, i < k' → (st.dispatch_count + i + 1) % d ≠ 0 := by
      intro i hi
      have hlt : st.dispatch_count % d + i + 1 < d := by omega
      rw [mod_add_small st.dispatch_count d i hlt]
      omega
    have hrun := run_subs_no_commit env di s d hconst k' st hno
    rw [hrun.2, hrun.1, step_sub_commit_count, hconst]
    have hfire : (st.dispatch_count + k' + 1) % d = 0 := by
      have harg : st.dispatch_count + k' + 1
          = st.dispatch_count + (d - st.dispatch_count % d) := by omega
      rw [harg]
      exact mod_add_full st.dispatch_count d hd
    simp [hfire]

theorem commit_counter_behavior_witness :
    (∀ t, dispatches_per_commit env0 7 t = 32)
      ∧ commit_count (run_subs env0 7 shutter0 32
          { sample_id := 0, dispatch_count := 0 }).2 = 1 :=
  ⟨fun _ => rfl,
   (commit_counter_behavior env0 7 shutter0 32 (fun _ => rfl)
       (by decide)).2.2.2 { sample_id := 0, dispatch_count := 0 }⟩

end LuisaRender
